import Mathlib

/-!
Verification development for the TAMS client's transfer-worker subsystem.

The definitions below are a shallow embedding of the Python source:

* `src/client/runners/save.py` (`DownloadScansWorker.__init__` and
  `DownloadScansWorker.job`),
* `src/client/utils/file.py` (`create_dir_if_missing`, `move_or_copy_item`),
* `src/client/db/views.py` (`DatabaseView.get_scan_metadata`),
* `src/client/dialogues/create_scan.py` (`CreateScanDlg.get_scan_form_data`).

Status reads of the running job body are modelled by an explicit schedule:
the i-th read of `self.worker_status` returns `statusAt sigma d i`, where
`sigma` lists the first reads and `d` is the value of every later read.  The
job body of `save.py` performs, per copied file: the copy, a progress
emission, the busy-wait pause loop (one read per test), the kill check (one
read) and the finished check (one read), in that order.

Pieces of the repository that are imported by `save.py` but are not under
`src/` (the generic `Worker` base class in `client/runners/generic.py` and
the TOML helpers in `client/utils/toml.py`) are modelled from the spec and
carry a doc comment saying so.
-/

set_option synthInstance.maxSize 1024

/-- Decidable equality on `Except`, for evaluating the theorems below. -/
instance exceptDecEq {ε α : Type} [DecidableEq ε] [DecidableEq α] :
    DecidableEq (Except ε α) := fun a b =>
  match a, b with
  | Except.ok x, Except.ok y =>
    if h : x = y then isTrue (by rw [h])
    else isFalse (by intro hc; cases hc; exact h rfl)
  | Except.ok _, Except.error _ => isFalse (by intro hc; cases hc)
  | Except.error _, Except.ok _ => isFalse (by intro hc; cases hc)
  | Except.error x, Except.error y =>
    if h : x = y then isTrue (by rw [h])
    else isFalse (by intro hc; cases hc; exact h rfl)

namespace TAMS

/-- Worker status values, from the spec §3/§4.1 (the body of
`DownloadScansWorker.job` compares against `PAUSED`, `KILLED` and
`FINISHED`). -/
inductive WorkerStatus
  | PENDING
  | RUNNING
  | PAUSED
  | KILLED
  | FINISHED
  | ERROR
  deriving DecidableEq, Repr

/-- A filesystem path, as its list of components. -/
abbrev Path := List String

/-- The value of the i-th read of `self.worker_status`: the schedule `sigma`
gives the first `sigma.length` reads, every later read returns `d`. -/
def statusAt (sigma : List WorkerStatus) (d : WorkerStatus) (i : Nat) : WorkerStatus :=
  sigma.getD i d

/-- Fuel-driven unfolding of the busy-wait loop
`while self.worker_status is WorkerStatus.PAUSED: time.sleep(0)`
(save.py lines 150-152).  Each test of the loop condition consumes one
status read. -/
def skipPausedAux (sigma : List WorkerStatus) (d : WorkerStatus) : Nat → Nat → Nat
  | 0, i => i
  | fuel + 1, i =>
    if statusAt sigma d i = WorkerStatus.PAUSED then skipPausedAux sigma d fuel (i + 1) else i

/-- Index of the first status read at or after `i` that does not return
`PAUSED` — the read on which the busy-wait loop of save.py lines 150-152
falls through.  (Meaningful when the schedule tail `d` is not `PAUSED`;
then `sigma.length - i` fuel always suffices.) -/
def skipPaused (sigma : List WorkerStatus) (d : WorkerStatus) (i : Nat) : Nat :=
  skipPausedAux sigma d (sigma.length - i) i

/-- Python exception classes relevant to `move_or_copy_item`
(file.py lines 64-74). -/
inductive PyErr
  | sameFileError
  | permissionError
  | fileExistsError
  | otherError
  deriving DecidableEq, Repr

/-- The exception classes caught (and logged) by `move_or_copy_item`:
`shutil.SameFileError`, `PermissionError`, `FileExistsError`
(file.py lines 64-74). -/
def handled_errors : List PyErr :=
  [PyErr.sameFileError, PyErr.permissionError, PyErr.fileExistsError]

/-- Result of one `move_or_copy_item` call. -/
inductive MoveResult
  | copied
  | skippedHandled (e : PyErr)
  | raised (e : PyErr)
  deriving DecidableEq, Repr

/-- `move_or_copy_item` (file.py lines 25-74) with `keep_original=True`:
the copy attempt's outcome is given by the oracle `eps` (`none` = the
`shutil.copy` succeeds, `some e` = it raises `e`).  The three handled
exception classes are caught and logged, so the call returns normally and
the caller's loop continues; any other exception propagates. -/
def move_or_copy_item (eps : Path → Option PyErr) (item : Path) : MoveResult :=
  match eps item with
  | none => MoveResult.copied
  | some e =>
    if handled_errors.contains e then MoveResult.skippedHandled e else MoveResult.raised e

/-- Observable actions of a run of `DownloadScansWorker.job` (save.py
lines 118-159), plus the terminal signals of the generic worker. -/
inductive Ev
  | metaDirCall (scan : String)
  | sidecarWrite (scan : String)
  | copy (item : Path)
  | skipped (item : Path)
  | progress
  | killedRaise
  | finishedSig
  | killedSig
  deriving DecidableEq, Repr

/-- How the per-file loop over `target.rglob("*")` ended. -/
inductive InnerRes
  | done (next : Nat)
  | finBreak (next : Nat)
  | killedExit
  | erroredExit
  deriving DecidableEq, Repr

/-- The per-file loop of `DownloadScansWorker.job` (save.py lines 136-159)
over the files of one scan, starting at status-read index `r`.  Per file:
`move_item` (copy, with outcome oracle `eps`), `self.signals.progress.emit(1)`,
the pause busy-wait, the `KILLED` check (raises `WorkerKilledException`),
and the `FINISHED` check (breaks this loop).  An exception other than the
handled three propagates out of the loop. -/
def job_files (sigma : List WorkerStatus) (d : WorkerStatus) (eps : Path → Option PyErr) :
    List Path → Nat → List Ev × InnerRes
  | [], r => ([], InnerRes.done r)
  | item :: rest, r =>
    match move_or_copy_item eps item with
    | MoveResult.raised _ => ([], InnerRes.erroredExit)
    | MoveResult.copied =>
      if statusAt sigma d (skipPaused sigma d r + 1) = WorkerStatus.KILLED then
        ([Ev.copy item, Ev.progress, Ev.killedRaise], InnerRes.killedExit)
      else if statusAt sigma d (skipPaused sigma d r + 2) = WorkerStatus.FINISHED then
        ([Ev.copy item, Ev.progress], InnerRes.finBreak (skipPaused sigma d r + 3))
      else
        (Ev.copy item :: Ev.progress ::
           (job_files sigma d eps rest (skipPaused sigma d r + 3)).1,
         (job_files sigma d eps rest (skipPaused sigma d r + 3)).2)
    | MoveResult.skippedHandled _ =>
      if statusAt sigma d (skipPaused sigma d r + 1) = WorkerStatus.KILLED then
        ([Ev.skipped item, Ev.progress, Ev.killedRaise], InnerRes.killedExit)
      else if statusAt sigma d (skipPaused sigma d r + 2) = WorkerStatus.FINISHED then
        ([Ev.skipped item, Ev.progress], InnerRes.finBreak (skipPaused sigma d r + 3))
      else
        (Ev.skipped item :: Ev.progress ::
           (job_files sigma d eps rest (skipPaused sigma d r + 3)).1,
         (job_files sigma d eps rest (skipPaused sigma d r + 3)).2)

/-- Outcome of the whole `job` body. -/
inductive JobOutcome
  | completed
  | killed
  | errored
  deriving DecidableEq, Repr

/-- The outer loop of `DownloadScansWorker.job` (save.py lines 122-159):
per scan it calls `create_dir_if_missing(destination / "tams_meta")`, writes
the sidecar via `create_toml`, then runs the per-file loop.  A `FINISHED`
break of the inner loop only ends that scan's file loop — the outer loop
continues with the next scan.  `WorkerKilledException` and any unhandled
exception unwind out of both loops. -/
def job_scans (sigma : List WorkerStatus) (d : WorkerStatus) (eps : Path → Option PyErr) :
    List (String × List Path) → Nat → List Ev × JobOutcome
  | [], _ => ([], JobOutcome.completed)
  | (scan, files) :: rest, r =>
    match job_files sigma d eps files r with
    | (evs, InnerRes.done r2) =>
      (Ev.metaDirCall scan :: Ev.sidecarWrite scan ::
         (evs ++ (job_scans sigma d eps rest r2).1),
       (job_scans sigma d eps rest r2).2)
    | (evs, InnerRes.finBreak r2) =>
      (Ev.metaDirCall scan :: Ev.sidecarWrite scan ::
         (evs ++ (job_scans sigma d eps rest r2).1),
       (job_scans sigma d eps rest r2).2)
    | (evs, InnerRes.killedExit) =>
      (Ev.metaDirCall scan :: Ev.sidecarWrite scan :: evs, JobOutcome.killed)
    | (evs, InnerRes.erroredExit) =>
      (Ev.metaDirCall scan :: Ev.sidecarWrite scan :: evs, JobOutcome.errored)

/-- Modelled from the spec: the generic `Worker` base class
(`client/runners/generic.py`, imported by save.py but not under `src/`).
Per §4.1 and §6, the scheduler wrapper around the job body emits `finished`
exactly once on normal return, catches `WorkerKilledException` and emits
`killed` exactly once, and transitions the job to the terminal `ERROR`
state on any other exception (§7: unrecoverable errors). -/
def worker_run (sigma : List WorkerStatus) (d : WorkerStatus) (eps : Path → Option PyErr)
    (scans : List (String × List Path)) : List Ev × WorkerStatus :=
  match (job_scans sigma d eps scans 0).2 with
  | JobOutcome.completed =>
    ((job_scans sigma d eps scans 0).1 ++ [Ev.finishedSig], WorkerStatus.FINISHED)
  | JobOutcome.killed =>
    ((job_scans sigma d eps scans 0).1 ++ [Ev.killedSig], WorkerStatus.KILLED)
  | JobOutcome.errored => ((job_scans sigma d eps scans 0).1, WorkerStatus.ERROR)

/-- The copy-outcome oracle of an error-free run. -/
def eps_none : Path → Option PyErr := fun _ => none

/-- Schedule on which every status read before the `k`-th returns `RUNNING`
and every read from the `k`-th on returns `KILLED`: a `kill()` request that
lands between the `k-1`-th and `k`-th status reads of the body (`KILLED` is
terminal, so the status never changes again). -/
def kill_schedule (k : Nat) : List WorkerStatus :=
  List.replicate k WorkerStatus.RUNNING

/-- A single-scan download run during which `kill()` is requested at
status-read boundary `k`. -/
def kill_run (k : Nat) (files : List Path) : List Ev × WorkerStatus :=
  worker_run (kill_schedule k) WorkerStatus.KILLED eps_none [("1", files)]

/-! ## Filesystem model for `DownloadScansWorker.__init__` (save.py lines 23-109) -/

/-- A filesystem entry: a directory or a file with its `st_size`. -/
inductive Entry
  | dir
  | file (size : Nat)
  deriving DecidableEq, Repr

/-- A filesystem: a finite association of paths to entries. -/
abbrev FS := List (Path × Entry)

/-- The entry at a path, if any. -/
def FS.entryAt (fs : FS) (p : Path) : Option Entry :=
  (fs.find? (fun e => e.1 == p)).map (fun e => e.2)

/-- `Path.exists()`. -/
def path_exists (fs : FS) (p : Path) : Bool :=
  (FS.entryAt fs p).isSome

/-- `Path.is_dir()`. -/
def path_is_dir (fs : FS) (p : Path) : Bool :=
  FS.entryAt fs p == some Entry.dir

/-- `create_dir_if_missing` (file.py lines 15-22): `os.makedirs` only when
the path does not already exist. -/
def create_dir_if_missing (fs : FS) (p : Path) : FS :=
  if path_exists fs p then fs else fs ++ [(p, Entry.dir)]

/-- Is `q` strictly below the directory `base`? -/
def under_dir (base q : Path) : Bool :=
  base.isPrefixOf q && decide (base.length < q.length)

/-- Is the entry a file? -/
def Entry.isFile : Entry → Bool
  | Entry.dir => false
  | Entry.file _ => true

/-- `q` is a direct child of `base`: its name, if so. -/
def child_name (base q : Path) : Option String :=
  if base.isPrefixOf q && decide (q.length = base.length + 1) then q.getLast? else none

/-- The subdirectory names produced by `self.permanent_storage_dir.glob("*")`
filtered by `is_dir()` (save.py lines 58-62). -/
def glob_dirs (fs : FS) (base : Path) : List String :=
  fs.filterMap (fun e => if e.2 == Entry.dir then child_name base e.1 else none)

/-- The number of files found by `os.walk` below `base`
(save.py lines 99-103); a missing directory walks to nothing. -/
def walk_count_files (fs : FS) (base : Path) : Nat :=
  (fs.filter (fun e => e.2.isFile && under_dir base e.1)).length

/-- The byte total of the files below `base` (save.py line 103). -/
def walk_size (fs : FS) (base : Path) : Nat :=
  (fs.filterMap (fun e =>
    if under_dir base e.1 then
      match e.2 with
      | Entry.dir => none
      | Entry.file n => some n
    else none)).sum

/-- The scan-id list of save.py lines 56-65: the project directory's
subdirectories when no ids are given, else the given ids as strings. -/
def scan_ids_of (fs : FS) (permanent_storage_dir : Path) (scan_ids : List Nat) : List String :=
  if scan_ids.isEmpty then glob_dirs fs permanent_storage_dir
  else scan_ids.map (fun n => toString n)

/-- The pre-flight index count over all target scan directories
(save.py lines 93-103). -/
def total_files (fs : FS) (permanent_storage_dir : Path) (ids : List String) : Nat :=
  (ids.map (fun s => walk_count_files fs (permanent_storage_dir ++ [s]))).sum

/-- The pre-flight byte total over all target scan directories. -/
def total_size (fs : FS) (permanent_storage_dir : Path) (ids : List String) : Nat :=
  (ids.map (fun s => walk_size fs (permanent_storage_dir ++ [s]))).sum

/-- save.py lines 73-80: create the local project directory and each local
scan directory if missing. -/
def make_local_dirs (fs : FS) (local_prj_dir : Path) (ids : List String) : FS :=
  (ids.map (fun s => local_prj_dir ++ [s])).foldl create_dir_if_missing
    (create_dir_if_missing fs local_prj_dir)

/-- Modelled from the spec: `Worker.set_max_progress`
(`client/runners/generic.py`, imported by save.py but not under `src/`).
Per §4.2 a negative maximum (`total_files - 1` with zero files) is invalid
and raises the `TypeError` that save.py lines 105-109 convert into
`ValueError("No files to download.")`. -/
def set_max_progress (n : Int) : Except String Nat :=
  if n < 0 then Except.error "TypeError" else Except.ok n.toNat

/-- The state of a successfully constructed `DownloadScansWorker`. -/
structure DownloadScansWorker where
  permanent_storage_dir : Path
  scan_ids : List String
  local_prj_dir : Path
  size_in_bytes : Nat
  max_progress : Nat
  deriving DecidableEq, Repr

/-- `DownloadScansWorker.__init__` (save.py lines 23-109) on filesystem
`fs`: library checks, project check, the scan-id existence check exactly as
written (`if not scan_dir.exists() and scan_dir.is_dir()`), local directory
creation, the indexing confirmation dialogue (`user_ok` is the user's
answer; `False` is Cancel), the file index, and `set_max_progress`.
Returns the outcome together with the filesystem after the side effects. -/
def dsw_init (fs : FS) (loc perm : Path) (prj_id : Nat) (scan_list : List Nat)
    (user_ok : Bool) : Except String DownloadScansWorker × FS :=
  if path_exists fs loc = false then
    (Except.error "Local library directory does not exist.", fs)
  else if path_exists fs perm = false then
    (Except.error "Permanent library directory does not exist.", fs)
  else if path_is_dir fs loc = false then
    (Except.error "Local library directory is not a directory.", fs)
  else if path_is_dir fs perm = false then
    (Except.error "Permanent library directory is not a directory.", fs)
  else
    let psd := perm ++ [toString prj_id]
    if (path_exists fs psd && path_is_dir fs psd) = false then
      (Except.error "Project directory does not exist in permanent library.", fs)
    else
      let ids := scan_ids_of fs psd scan_list
      if ids.any (fun s => !(path_exists fs (psd ++ [s])) && path_is_dir fs (psd ++ [s])) then
        (Except.error "Scan directory does not exist in permanent library.", fs)
      else
        let lpd := loc ++ [toString prj_id]
        let fs2 := make_local_dirs fs lpd ids
        if user_ok = false then
          (Except.error "User cancelled indexing files.", fs2)
        else
          match set_max_progress ((total_files fs2 psd ids : Int) - 1) with
          | Except.error _ => (Except.error "No files to download.", fs2)
          | Except.ok mp =>
            (Except.ok
              { permanent_storage_dir := psd
                scan_ids := ids
                local_prj_dir := lpd
                size_in_bytes := total_size fs2 psd ids
                max_progress := mp }, fs2)

/-! ## Catalog model for `DatabaseView.get_scan_metadata` (views.py lines 111-151) -/

/-- The catalog relations used by the embedded queries: `scan` rows
`(scan_id, project_id, instrument_id)`, `project` rows restricted to
`(project_id, title)`, `instrument` rows restricted to
`(instrument_id, name)`. -/
structure Catalog where
  scans : List (Int × Int × Int)
  projects : List (Int × String)
  instruments : List (Int × String)

/-- The rows of `select scan_id, project_id, instrument_id from scan where
scan_id={scan_id}` (views.py lines 116-120). -/
def select_scan_rows (c : Catalog) (scan_id : Int) : List (Int × Int × Int) :=
  c.scans.filter (fun r => r.1 == scan_id)

/-- The rows of `select title from project where project_id={project_id}`
(views.py lines 127-131). -/
def select_project_titles (c : Catalog) (project_id : Int) : List String :=
  (c.projects.filter (fun r => r.1 == project_id)).map (fun r => r.2)

/-- The rows of `select name from instrument where instrument_id={instrument_id}`
(views.py lines 139-143). -/
def select_instrument_names (c : Catalog) (instrument_id : Int) : List String :=
  (c.instruments.filter (fun r => r.1 == instrument_id)).map (fun r => r.2)

/-- The f-string `"{x} ({name})"` used at views.py lines 135 and 147. -/
def fmt_id_name (x : Int) (name : String) : String :=
  toString x ++ " (" ++ name ++ ")"

/-- `str.replace(" ", "")`: drop every space character. -/
def strip_spaces (s : String) : String :=
  String.mk (s.toList.filter (fun ch => ch ≠ ' '))

/-- Helper for `split_commas`: accumulate the current field (reversed). -/
def split_commas_aux : List Char → List Char → List String
  | [], acc => [String.mk acc.reverse]
  | ch :: cs, acc =>
    if ch = ',' then String.mk acc.reverse :: split_commas_aux cs []
    else split_commas_aux cs (ch :: acc)

/-- `str.split(",")`: split on commas. -/
def split_commas (s : String) : List String :=
  split_commas_aux s.toList []

/-- The column labels computed by `view_select_from_where`
(views.py lines 64-66): `select_value.replace(" ", "").split(",")` for the
select value `"scan_id, project_id, instrument_id"`. -/
def scan_metadata_headers : List String :=
  split_commas (strip_spaces "scan_id, project_id, instrument_id")

/-- `DatabaseView.get_scan_metadata` (views.py lines 111-151): the scan row
with project id and instrument id replaced by embedded display strings,
paired with the column labels.  `data[0]` on an empty result is Python's
`IndexError`. -/
def get_scan_metadata (c : Catalog) (scan_id : Int) :
    Except String ((Int × String × String) × List String) :=
  match select_scan_rows c scan_id with
  | [] => Except.error "IndexError"
  | row :: _ =>
    let project_id := row.2.1
    match select_project_titles c project_id with
    | [] => Except.error "IndexError"
    | project_title :: _ =>
      let project_id_metadata := fmt_id_name project_id project_title
      let instrument_id := row.2.2
      match select_instrument_names c instrument_id with
      | [] => Except.error "IndexError"
      | instrument_name :: _ =>
        let instrument_id_metadata := fmt_id_name instrument_id instrument_name
        Except.ok ((scan_id, project_id_metadata, instrument_id_metadata),
          scan_metadata_headers)

/-! ## Sidecar document model (save.py lines 130-134, create_scan.py lines 95-108) -/

/-- A scalar value of the sidecar document. -/
inductive TomlValue
  | intVal (n : Int)
  | strVal (s : String)
  deriving DecidableEq, Repr

/-- A key-grouped sidecar document: top-level group name to key-value table. -/
abbrev TomlDoc := List (String × List (String × TomlValue))

/-- The sidecar files on disk: path to document. -/
abbrev DocStore := List (Path × TomlDoc)

/-- Modelled from the spec: `create_toml` (`client/utils/toml.py`, imported
by save.py but not under `src/`).  Per the §9 observed-behavior note, the
write stores the given document whole at the path — replacing any existing
document rather than merging with it — and creates the file if absent. -/
def create_toml (store : DocStore) (p : Path) (doc : TomlDoc) : DocStore :=
  if store.any (fun e => e.1 == p) then
    store.map (fun e => if e.1 == p then (p, doc) else e)
  else store ++ [(p, doc)]

/-- `get_scan_form_data` as in `CreateScanDlg.get_scan_form_data`
(create_scan.py lines 95-108), which save.py's
`DownloadScansWorker.get_scan_form_data` mirrors through
`DatabaseView.get_scan_form_data` (not under `src/`): the document holds a
single `hardcoded` group zipping the column labels with the scan row. -/
def get_scan_form_data (c : Catalog) (scan_id : Int) : Except String TomlDoc :=
  match select_scan_rows c scan_id with
  | [] => Except.error "IndexError"
  | row :: _ =>
    Except.ok [("hardcoded",
      [("scan_id", TomlValue.intVal row.1),
       ("project_id", TomlValue.intVal row.2.1),
       ("instrument_id", TomlValue.intVal row.2.2)])]

/-- The sidecar write of `DownloadScansWorker.job` (save.py lines 130-134):
recompute the form data from the catalog and write it at
`destination / "tams_meta" / "user_form.toml"`. -/
def download_write_sidecar (c : Catalog) (store : DocStore) (destination : Path)
    (scan_id : Int) : Except String DocStore :=
  match get_scan_form_data c scan_id with
  | Except.error e => Except.error e
  | Except.ok doc =>
    Except.ok (create_toml store (destination ++ ["tams_meta", "user_form.toml"]) doc)

/-! ## Copy destination (file.py lines 47-55, save.py lines 136-144) -/

/-- `item.name`: the last path component. -/
def item_name (item : Path) : String := item.getLastD ""

/-- The destination of `shutil.copy(item, destination_directory / item.name)`
in `move_or_copy_item` (file.py line 53). -/
def copy_destination (destination_directory : Path) (item : Path) : Path :=
  destination_directory ++ [item_name item]

/-- The destination of a file in `DownloadScansWorker.job`
(save.py line 144): `move_item(item, destination / "raw", keep_original=True)`
with `destination = self.local_prj_dir / Path(scan)`. -/
def job_raw_destination (local_prj_dir : Path) (scan : String) (item : Path) : Path :=
  copy_destination (local_prj_dir ++ [scan, "raw"]) item

/-! ## Concrete instances used by the evaluation theorems -/

/-- Catalog with one scan `(1, 7, 3)`, project `7` and instrument `3`. -/
def demo_catalog : Catalog :=
  { scans := [(1, 7, 3)]
    projects := [(7, "ProjTitle")]
    instruments := [(3, "InstName")] }

/-- The sidecar path of scan `1` of project `7` under the local root. -/
def demo_sidecar_path : Path := ["local", "7", "1", "tams_meta", "user_form.toml"]

/-- A pre-existing sidecar document carrying a user-edited mutable entry. -/
def demo_old_doc : TomlDoc :=
  [("hardcoded",
    [("scan_id", TomlValue.intVal 1), ("project_id", TomlValue.intVal 7),
     ("instrument_id", TomlValue.intVal 3)]),
   ("mutable", [("note", TomlValue.strVal "user edit")])]

/-- The regenerated document the download writes for scan `1`. -/
def demo_fresh_doc : TomlDoc :=
  [("hardcoded",
    [("scan_id", TomlValue.intVal 1), ("project_id", TomlValue.intVal 7),
     ("instrument_id", TomlValue.intVal 3)])]

/-- A document store in which scan `1`'s sidecar already exists. -/
def demo_store : DocStore := [(demo_sidecar_path, demo_old_doc)]

/-- Filesystem for the constructor theorems: libraries `l` and `p`, project
`1` with scan `10` holding one file; no scan `99`. -/
def c4_fs : FS :=
  [(["l"], Entry.dir), (["p"], Entry.dir), (["p", "1"], Entry.dir),
   (["p", "1", "10"], Entry.dir), (["p", "1", "10", "f.dat"], Entry.file 5)]

/-- A two-scan run during which the status becomes `FINISHED` externally at
the third status read — the `FINISHED` check after scan `1`'s first file. -/
def c6_run : List Ev × WorkerStatus :=
  worker_run [WorkerStatus.RUNNING, WorkerStatus.RUNNING] WorkerStatus.FINISHED eps_none
    [("1", [["a"]]), ("2", [["b"]])]

/-! ## Claim theorems -/

/-- C1, counterexample: kill requested before the first status read of a
one-file job — that is, after N = 0 of M = 1 units of work have completed.
The claim predicts exactly N = 0 progress increments, but the body emits the
file's progress increment before its kill check, so observers receive 1
increment (together with the killed signal and no finished signal). -/
theorem c1_zero_units_one_increment :
    (kill_run 0 [["f1"]]).1.count Ev.progress = 1 ∧
    (kill_run 0 [["f1"]]).1.count Ev.killedRaise = 1 ∧
    (kill_run 0 [["f1"]]).1.count Ev.finishedSig = 0 ∧
    (kill_run 0 [["f1"]]).2 = WorkerStatus.KILLED := by decide

/-- C2, failing input: a download of scan `1` to a destination whose sidecar
document already exists and carries a user-edited `mutable` entry.  The
write replaces the whole document with the freshly regenerated one, so the
pre-existing mutable section is discarded, not preserved. -/
theorem c2_mutable_discarded :
    download_write_sidecar demo_catalog demo_store ["local", "7", "1"] 1 =
      Except.ok [(demo_sidecar_path, demo_fresh_doc)] ∧
    demo_old_doc.lookup "mutable" = some [("note", TomlValue.strVal "user edit")] ∧
    demo_fresh_doc.lookup "mutable" = none ∧
    download_write_sidecar demo_catalog [] ["local", "7", "1"] 1 =
      Except.ok [(demo_sidecar_path, demo_fresh_doc)] := by decide

/-- C4, failing input: explicit scan ids `[10, 99]` where scan `10` exists
in the permanent tier (with one file) and scan `99` does not.  The claim
says construction must fail with a `ValueError`, but the check
`if not scan_dir.exists() and scan_dir.is_dir()` (save.py line 69) can never
be true, so construction succeeds. -/
theorem c4_missing_scan_accepted :
    (dsw_init c4_fs ["l"] ["p"] 1 [10, 99] true).1.isOk = true ∧
    path_exists c4_fs ["p", "1", "99"] = false := by decide

/-- C6, failing input: two scans of one file each, with the status becoming
`FINISHED` externally at scan `1`'s finished-check.  The claim says no
further file copies, sidecar writes or directory creations occur, but the
`break` (save.py line 159) only exits the per-file loop: scan `2` still gets
its `tams_meta` creation call, its sidecar write and one file copy, and the
body then returns normally. -/
theorem c6_continues_after_finished :
    c6_run.1.count (Ev.sidecarWrite "2") = 1 ∧
    c6_run.1.count (Ev.copy ["b"]) = 1 ∧
    c6_run.1.count (Ev.metaDirCall "2") = 1 ∧
    c6_run.2 = WorkerStatus.FINISHED := by decide

/-! ## Helper lemmas -/

theorem path_is_dir_exists (fs : FS) (p : Path) (h : path_is_dir fs p = true) :
    path_exists fs p = true := by
  unfold path_is_dir at h
  unfold path_exists
  rw [beq_iff_eq] at h
  rw [h]
  rfl

/-- The scan existence check of save.py line 69,
`if not scan_dir.exists() and scan_dir.is_dir()`, is never true: a path that
does not exist is not a directory. -/
theorem scan_check_never (fs : FS) (p : Path) :
    (!(path_exists fs p) && path_is_dir fs p) = false := by
  cases h : path_is_dir fs p with
  | true => rw [path_is_dir_exists fs p h]; rfl
  | false => simp

theorem any_scan_check_false (fs : FS) (psd : Path) (ids : List String) :
    (ids.any (fun s => !(path_exists fs (psd ++ [s])) && path_is_dir fs (psd ++ [s]))) =
      false := by
  rw [List.any_eq_false]
  intro s _
  simp [scan_check_never]

theorem entryAt_append (fs l : FS) (p : Path) :
    FS.entryAt (fs ++ l) p =
      ((fs.find? (fun e => e.1 == p)).or (l.find? (fun e => e.1 == p))).map
        (fun e => e.2) := by
  unfold FS.entryAt
  rw [List.find?_append]

theorem path_is_dir_create_mono (fs : FS) (p q : Path) (h : path_is_dir fs p = true) :
    path_is_dir (create_dir_if_missing fs q) p = true := by
  unfold create_dir_if_missing
  split
  · exact h
  · unfold path_is_dir at h ⊢
    rw [beq_iff_eq] at h ⊢
    unfold FS.entryAt at h ⊢
    rw [List.find?_append]
    cases hf : fs.find? (fun e => e.1 == p) with
    | none => rw [hf] at h; simp at h
    | some e => rw [hf] at h; simpa using h

theorem create_dir_preserves_inv (fs : FS) (p q : Path)
    (h : path_is_dir fs p = true ∨ path_exists fs p = false) :
    path_is_dir (create_dir_if_missing fs q) p = true ∨
      path_exists (create_dir_if_missing fs q) p = false := by
  rcases h with h | h
  · exact Or.inl (path_is_dir_create_mono fs p q h)
  · unfold create_dir_if_missing
    split
    · exact Or.inr h
    · unfold path_exists FS.entryAt at h ⊢
      cases hf : fs.find? (fun e => e.1 == p) with
      | none =>
        by_cases hqp : q = p
        · subst hqp
          left
          unfold path_is_dir FS.entryAt
          rw [List.find?_append, hf]
          simp [List.find?]
        · right
          rw [List.find?_append, hf]
          have hqp2 : (q == p) = false := beq_eq_false_iff_ne.mpr hqp
          simp [List.find?, hqp2]
      | some e => rw [hf] at h; simp at h

theorem create_dir_makes_dir (fs : FS) (p : Path)
    (h : path_is_dir fs p = true ∨ path_exists fs p = false) :
    path_is_dir (create_dir_if_missing fs p) p = true := by
  rcases h with h | h
  · exact path_is_dir_create_mono fs p p h
  · unfold create_dir_if_missing
    rw [h]
    simp only [Bool.false_eq_true, if_false]
    unfold path_is_dir
    rw [entryAt_append]
    unfold path_exists FS.entryAt at h
    cases hf : fs.find? (fun e => e.1 == p) with
    | none => simp [List.find?]
    | some e => rw [hf] at h; simp at h

theorem foldl_create_mono (l : List Path) :
    ∀ (fs : FS) (p : Path), path_is_dir fs p = true →
      path_is_dir (l.foldl create_dir_if_missing fs) p = true := by
  induction l with
  | nil => intro fs p h; exact h
  | cons q t ih =>
    intro fs p h
    exact ih (create_dir_if_missing fs q) p (path_is_dir_create_mono fs p q h)

theorem foldl_create_self (l : List Path) :
    ∀ (fs : FS) (p : Path), p ∈ l →
      (path_is_dir fs p = true ∨ path_exists fs p = false) →
      path_is_dir (l.foldl create_dir_if_missing fs) p = true := by
  induction l with
  | nil => intro fs p h; cases h
  | cons q t ih =>
    intro fs p hmem hinv
    rcases List.mem_cons.mp hmem with hpq | hpt
    · subst hpq
      exact foldl_create_mono t (create_dir_if_missing fs p) p
        (create_dir_makes_dir fs p hinv)
    · exact ih (create_dir_if_missing fs q) p hpt (create_dir_preserves_inv fs p q hinv)

theorem make_local_dirs_prj (fs : FS) (lpd : Path) (ids : List String)
    (h : path_is_dir fs lpd = true ∨ path_exists fs lpd = false) :
    path_is_dir (make_local_dirs fs lpd ids) lpd = true := by
  unfold make_local_dirs
  exact foldl_create_mono _ _ _ (create_dir_makes_dir fs lpd h)

theorem make_local_dirs_scan (fs : FS) (lpd : Path) (ids : List String) (s : String)
    (hs : s ∈ ids)
    (h : path_is_dir fs (lpd ++ [s]) = true ∨ path_exists fs (lpd ++ [s]) = false) :
    path_is_dir (make_local_dirs fs lpd ids) (lpd ++ [s]) = true := by
  unfold make_local_dirs
  exact foldl_create_self _ _ _ (List.mem_map_of_mem (fun x => lpd ++ [x]) hs)
    (create_dir_preserves_inv fs (lpd ++ [s]) lpd h)

/-- Under passing pre-flight checks, the filesystem returned by the
constructor is the one produced by the directory-creation step, whatever the
outcome (user cancellation, empty index, or success). -/
theorem dsw_init_fs (fs : FS) (loc perm : Path) (prj_id : Nat) (scan_list : List Nat)
    (user_ok : Bool)
    (h1 : path_exists fs loc = true) (h2 : path_exists fs perm = true)
    (h3 : path_is_dir fs loc = true) (h4 : path_is_dir fs perm = true)
    (h5 : path_exists fs (perm ++ [toString prj_id]) = true)
    (h6 : path_is_dir fs (perm ++ [toString prj_id]) = true) :
    (dsw_init fs loc perm prj_id scan_list user_ok).2 =
      make_local_dirs fs (loc ++ [toString prj_id])
        (scan_ids_of fs (perm ++ [toString prj_id]) scan_list) := by
  unfold dsw_init
  cases user_ok with
  | false =>
    simp only [h1, h2, h3, h4, h5, h6, any_scan_check_false, Bool.true_and,
      Bool.true_eq_false, if_false, Bool.false_eq_true, eq_self_iff_true, if_true]
  | true =>
    simp only [h1, h2, h3, h4, h5, h6, any_scan_check_false, Bool.true_and,
      Bool.true_eq_false, if_false, Bool.false_eq_true]
    split <;> rfl

/-- C10: once the library and project pre-flight checks pass, the
constructor creates the local project directory and a local directory for
every selected scan before the indexing prompt, so these directories exist
in the returned filesystem whatever the outcome — including the
user-cancellation and no-files precondition failures.  (The hypotheses about
the local paths say only that none of them is an existing non-directory.) -/
theorem c10_constructor_side_effects (fs : FS) (loc perm : Path) (prj_id : Nat)
    (scan_list : List Nat) (user_ok : Bool)
    (h1 : path_exists fs loc = true) (h2 : path_exists fs perm = true)
    (h3 : path_is_dir fs loc = true) (h4 : path_is_dir fs perm = true)
    (h5 : path_exists fs (perm ++ [toString prj_id]) = true)
    (h6 : path_is_dir fs (perm ++ [toString prj_id]) = true)
    (hlp : path_is_dir fs (loc ++ [toString prj_id]) = true ∨
      path_exists fs (loc ++ [toString prj_id]) = false)
    (hsc : ∀ s ∈ scan_ids_of fs (perm ++ [toString prj_id]) scan_list,
      path_is_dir fs (loc ++ [toString prj_id] ++ [s]) = true ∨
        path_exists fs (loc ++ [toString prj_id] ++ [s]) = false) :
    path_is_dir (dsw_init fs loc perm prj_id scan_list user_ok).2
      (loc ++ [toString prj_id]) = true ∧
    ∀ s ∈ scan_ids_of fs (perm ++ [toString prj_id]) scan_list,
      path_is_dir (dsw_init fs loc perm prj_id scan_list user_ok).2
        (loc ++ [toString prj_id] ++ [s]) = true := by
  rw [dsw_init_fs fs loc perm prj_id scan_list user_ok h1 h2 h3 h4 h5 h6]
  constructor
  · exact make_local_dirs_prj fs (loc ++ [toString prj_id]) _ hlp
  · intro s hs
    exact make_local_dirs_scan fs (loc ++ [toString prj_id]) _ s hs (hsc s hs)

/-- C10 witness: on the demo filesystem a construction that fails (the user
cancels at the indexing prompt) still leaves the local project directory
`l/1` and the local scan directory `l/1/10` created. -/
theorem c10_constructor_side_effects_witness :
    (dsw_init c4_fs ["l"] ["p"] 1 [10] false).1 =
      Except.error "User cancelled indexing files." ∧
    path_is_dir (dsw_init c4_fs ["l"] ["p"] 1 [10] false).2 ["l", "1"] = true ∧
    path_is_dir (dsw_init c4_fs ["l"] ["p"] 1 [10] false).2 ["l", "1", "10"] = true :=
  ⟨by decide,
   (c10_constructor_side_effects c4_fs ["l"] ["p"] 1 [10] false (by decide) (by decide)
      (by decide) (by decide) (by decide) (by decide) (by decide) (by decide)).1,
   (c10_constructor_side_effects c4_fs ["l"] ["p"] 1 [10] false (by decide) (by decide)
      (by decide) (by decide) (by decide) (by decide) (by decide) (by decide)).2
     "10" (by decide)⟩

/-- C3: whenever construction succeeds, `max_progress + 1` equals the
pre-flight file count over all target scan directories (so `max_progress`
is `total_files - 1`), and that count is positive — equivalently, with zero
files construction fails before any job object exists, so no background
work can be scheduled. -/
theorem c3_max_progress (fs : FS) (loc perm : Path) (prj_id : Nat)
    (scan_list : List Nat) (user_ok : Bool) (w : DownloadScansWorker) (fs2 : FS)
    (h : dsw_init fs loc perm prj_id scan_list user_ok = (Except.ok w, fs2)) :
    w.max_progress + 1 = total_files fs2 w.permanent_storage_dir w.scan_ids ∧
    0 < total_files fs2 w.permanent_storage_dir w.scan_ids := by
  simp only [dsw_init] at h
  split at h
  · simp at h
  split at h
  · simp at h
  split at h
  · simp at h
  split at h
  · simp at h
  split at h
  · simp at h
  split at h
  · simp at h
  split at h
  · simp at h
  split at h
  · simp at h
  case _ mp heq =>
    simp only [Prod.mk.injEq, Except.ok.injEq] at h
    obtain ⟨hw, hfs⟩ := h
    subst hw
    subst hfs
    simp only
    unfold set_max_progress at heq
    split at heq
    · simp at heq
    case _ hneg =>
      simp only [Except.ok.injEq] at heq
      subst heq
      omega

/-- C3 witness: successful construction on the demo filesystem, where the
single target scan holds one file: `max_progress = 0` and the indexed count
is `1`. -/
theorem c3_max_progress_witness :
    ({ permanent_storage_dir := ["p", "1"]
       scan_ids := ["10"]
       local_prj_dir := ["l", "1"]
       size_in_bytes := 5
       max_progress := 0 : DownloadScansWorker }).max_progress + 1 =
      total_files (c4_fs ++ [(["l", "1"], Entry.dir), (["l", "1", "10"], Entry.dir)])
        ["p", "1"] ["10"] ∧
    0 < total_files (c4_fs ++ [(["l", "1"], Entry.dir), (["l", "1", "10"], Entry.dir)])
        ["p", "1"] ["10"] :=
  c3_max_progress c4_fs ["l"] ["p"] 1 [10] true
    { permanent_storage_dir := ["p", "1"]
      scan_ids := ["10"]
      local_prj_dir := ["l", "1"]
      size_in_bytes := 5
      max_progress := 0 }
    (c4_fs ++ [(["l", "1"], Entry.dir), (["l", "1", "10"], Entry.dir)]) (by decide)

/-- Characterization of the busy-wait unfolding: with enough fuel, it stops
at the first non-`PAUSED` status read at or after `i`, and every read
strictly before that returned `PAUSED`. -/
theorem skipPausedAux_spec (sigma : List WorkerStatus) (d : WorkerStatus)
    (hd : d ≠ WorkerStatus.PAUSED) :
    ∀ fuel i, sigma.length ≤ fuel + i →
      i ≤ skipPausedAux sigma d fuel i ∧
      statusAt sigma d (skipPausedAux sigma d fuel i) ≠ WorkerStatus.PAUSED ∧
      ∀ m, i ≤ m → m < skipPausedAux sigma d fuel i →
        statusAt sigma d m = WorkerStatus.PAUSED := by
  intro fuel
  induction fuel with
  | zero =>
    intro i hle
    refine ⟨Nat.le_refl _, ?_, ?_⟩
    · unfold skipPausedAux statusAt
      rw [List.getD_eq_default _ _ (by omega)]
      exact hd
    · intro m hm1 hm2
      unfold skipPausedAux at hm2
      omega
  | succ f ih =>
    intro i hle
    unfold skipPausedAux
    by_cases hp : statusAt sigma d i = WorkerStatus.PAUSED
    · simp only [hp, if_true, eq_self_iff_true]
      obtain ⟨ha, hb, hc⟩ := ih (i + 1) (by omega)
      refine ⟨by omega, hb, ?_⟩
      intro m hm1 hm2
      by_cases hmi : m = i
      · rw [hmi]; exact hp
      · exact hc m (by omega) hm2
    · simp only [hp, if_false]
      exact ⟨Nat.le_refl _, hp, fun m hm1 hm2 => absurd hm2 (by omega)⟩

/-- C7: while the status reads `PAUSED`, the body neither advances progress
nor exits: the checkpoint wait of save.py lines 150-152 returns exactly the
first read at or after `i` whose status is not `PAUSED` (every earlier read
was `PAUSED`, so the body kept waiting and only then proceeds), and in any
run of the per-file loop the number of progress emissions equals the number
of processed files — paused status reads never add progress increments. -/
theorem c7_pause_blocks (sigma : List WorkerStatus) (d : WorkerStatus)
    (hd : d ≠ WorkerStatus.PAUSED) (i : Nat) :
    (i ≤ skipPaused sigma d i ∧
     statusAt sigma d (skipPaused sigma d i) ≠ WorkerStatus.PAUSED ∧
     ∀ m, i ≤ m → m < skipPaused sigma d i →
       statusAt sigma d m = WorkerStatus.PAUSED) ∧
    ∀ eps (files : List Path) r,
      (job_files sigma d eps files r).1.count Ev.progress =
        (job_files sigma d eps files r).1.countP
          (fun e => match e with
            | Ev.copy _ => true
            | Ev.skipped _ => true
            | _ => false) := by
  constructor
  · exact skipPausedAux_spec sigma d hd (sigma.length - i) i (by omega)
  · intro eps files
    induction files with
    | nil => intro r; rfl
    | cons f t ih =>
      intro r
      cases hmv : move_or_copy_item eps f with
      | raised e => simp [job_files, hmv]
      | copied =>
        simp only [job_files, hmv]
        split
        · simp [List.count_cons, List.countP_cons]
        · split
          · simp [List.count_cons, List.countP_cons]
          · simp [List.count_cons, List.countP_cons, ih]
      | skippedHandled e =>
        simp only [job_files, hmv]
        split
        · simp [List.count_cons, List.countP_cons]
        · split
          · simp [List.count_cons, List.countP_cons]
          · simp [List.count_cons, List.countP_cons, ih]

/-- Demo schedule for the pause theorem: two `PAUSED` reads, then `RUNNING`. -/
def pause_demo_schedule : List WorkerStatus :=
  [WorkerStatus.PAUSED, WorkerStatus.PAUSED, WorkerStatus.RUNNING]

/-- C7 witness: on the demo schedule the checkpoint waits through the two
paused reads and proceeds exactly at the third, and a one-file run emits as
many progress increments as files it processed. -/
theorem c7_pause_blocks_witness :
    skipPaused pause_demo_schedule WorkerStatus.RUNNING 0 = 2 ∧
    statusAt pause_demo_schedule WorkerStatus.RUNNING
      (skipPaused pause_demo_schedule WorkerStatus.RUNNING 0) ≠ WorkerStatus.PAUSED ∧
    (job_files pause_demo_schedule WorkerStatus.RUNNING eps_none [["a"]] 0).1.count
        Ev.progress =
      (job_files pause_demo_schedule WorkerStatus.RUNNING eps_none [["a"]] 0).1.countP
        (fun e => match e with
          | Ev.copy _ => true
          | Ev.skipped _ => true
          | _ => false) :=
  ⟨by decide,
   (c7_pause_blocks pause_demo_schedule WorkerStatus.RUNNING (by decide) 0).1.2.1,
   (c7_pause_blocks pause_demo_schedule WorkerStatus.RUNNING (by decide) 0).2
     eps_none [["a"]] 0⟩

/-- An outcome of the copy attempt that `move_or_copy_item` does not catch
(file.py lines 64-74 catch `SameFileError`, `PermissionError` and
`FileExistsError` only). -/
def unhandled (o : Option PyErr) : Bool :=
  match o with
  | none => false
  | some e => !(handled_errors.contains e)

/-- A run with no kill, pause or external-finish request: every status read
returns `RUNNING`. -/
def error_run (eps : Path → Option PyErr) (files : List Path) : List Ev × WorkerStatus :=
  worker_run [] WorkerStatus.RUNNING eps [("1", files)]

theorem statusAt_nil (d : WorkerStatus) (i : Nat) : statusAt [] d i = d := rfl

theorem skipPaused_nil (d : WorkerStatus) (i : Nat) : skipPaused [] d i = i := by
  unfold skipPaused
  rw [show ([] : List WorkerStatus).length - i = 0 from by simp]
  rfl

theorem move_of_not_unhandled (eps : Path → Option PyErr) (f : Path)
    (h : unhandled (eps f) = false) :
    move_or_copy_item eps f = MoveResult.copied ∨
      ∃ e, move_or_copy_item eps f = MoveResult.skippedHandled e := by
  unfold move_or_copy_item
  cases heps : eps f with
  | none => exact Or.inl rfl
  | some e =>
    right
    refine ⟨e, ?_⟩
    unfold unhandled at h
    rw [heps] at h
    simp only [Bool.not_eq_false'] at h
    have hm : e ∈ handled_errors := by simpa using h
    simp [hm]

theorem job_files_running_clean (eps : Path → Option PyErr) :
    ∀ (files : List Path) (r : Nat),
      (∀ f ∈ files, unhandled (eps f) = false) →
      (∃ r2, (job_files [] WorkerStatus.RUNNING eps files r).2 = InnerRes.done r2) ∧
      (job_files [] WorkerStatus.RUNNING eps files r).1.count Ev.progress =
        files.length := by
  intro files
  induction files with
  | nil => exact fun r _ => ⟨⟨r, rfl⟩, rfl⟩
  | cons f t ih =>
    intro r h
    have hf := h f (List.mem_cons_self f t)
    have ht : ∀ x ∈ t, unhandled (eps x) = false :=
      fun x hx => h x (List.mem_cons_of_mem f hx)
    obtain ⟨⟨r2, ih1⟩, ih2⟩ := ih (r + 3) ht
    rcases move_of_not_unhandled eps f hf with hmv | ⟨e, hmv⟩ <;>
      · simp only [job_files, hmv, statusAt_nil, skipPaused_nil]
        refine ⟨⟨r2, by simp [ih1]⟩, ?_⟩
        simp [List.count_cons, ih2]

theorem job_files_running_error (eps : Path → Option PyErr) :
    ∀ (xs : List Path) (y : Path) (zs : List Path) (r : Nat),
      (∀ x ∈ xs, unhandled (eps x) = false) → unhandled (eps y) = true →
      (job_files [] WorkerStatus.RUNNING eps (xs ++ y :: zs) r).2 =
        InnerRes.erroredExit ∧
      (job_files [] WorkerStatus.RUNNING eps (xs ++ y :: zs) r).1.count Ev.progress =
        xs.length := by
  intro xs
  induction xs with
  | nil =>
    intro y zs r _ hy
    have hmv : ∃ e, move_or_copy_item eps y = MoveResult.raised e := by
      unfold move_or_copy_item
      cases heps : eps y with
      | none => unfold unhandled at hy; rw [heps] at hy; simp at hy
      | some e =>
        unfold unhandled at hy
        rw [heps] at hy
        simp only [Bool.not_eq_true'] at hy
        have hm : e ∉ handled_errors := by simpa using hy
        exact ⟨e, by simp [hm]⟩
    obtain ⟨e, hmv⟩ := hmv
    simp [job_files, hmv]
  | cons x xs' ih =>
    intro y zs r h hy
    have hx := h x (List.mem_cons_self x xs')
    have hxs : ∀ a ∈ xs', unhandled (eps a) = false :=
      fun a ha => h a (List.mem_cons_of_mem x ha)
    obtain ⟨ih1, ih2⟩ := ih y zs (r + 3) hxs hy
    rcases move_of_not_unhandled eps x hx with hmv | ⟨e, hmv⟩ <;>
      · simp only [List.cons_append, job_files, hmv, statusAt_nil, skipPaused_nil]
        refine ⟨by simp [ih1], ?_⟩
        simp [List.count_cons, ih2]

/-- C5: during transfer with no kill/pause/finish request, a per-file
outcome among the handled classes (same-source-destination collision,
destination-already-exists, permission error) never aborts the job — if
every file's outcome is handled or clean, the run finishes normally with
one progress increment per file — while the first unhandled exception
transitions the whole job to the `ERROR` terminal state, exactly the files
before it having been processed (it never skips just that one file). -/
theorem c5_per_file_errors (eps : Path → Option PyErr) (files xs zs : List Path)
    (y : Path) :
    ((∀ f ∈ files, unhandled (eps f) = false) →
       (error_run eps files).2 = WorkerStatus.FINISHED ∧
       (error_run eps files).1.count Ev.progress = files.length) ∧
    (files = xs ++ y :: zs →
       (∀ x ∈ xs, unhandled (eps x) = false) →
       unhandled (eps y) = true →
       (error_run eps files).2 = WorkerStatus.ERROR ∧
       (error_run eps files).1.count Ev.progress = xs.length) := by
  constructor
  · intro h
    obtain ⟨⟨r2, h2⟩, hcount⟩ := job_files_running_clean eps files 0 h
    rcases hjf : job_files [] WorkerStatus.RUNNING eps files 0 with ⟨evs, res⟩
    rw [hjf] at h2 hcount
    simp only at h2 hcount
    subst h2
    simp [error_run, worker_run, job_scans, hjf, List.count_cons, hcount]
  · intro hsplit h hy
    subst hsplit
    obtain ⟨h2, hcount⟩ := job_files_running_error eps xs y zs 0 h hy
    rcases hjf : job_files [] WorkerStatus.RUNNING eps (xs ++ y :: zs) 0 with ⟨evs, res⟩
    rw [hjf] at h2 hcount
    simp only at h2 hcount
    subst h2
    simp [error_run, worker_run, job_scans, hjf, List.count_cons, hcount]

/-- Copy-outcome oracle for the C5 witness: file `b`'s copy raises
`FileExistsError` (handled), file `c`'s raises an unhandled exception. -/
def eps_demo : Path → Option PyErr := fun p =>
  if p = ["b"] then some PyErr.fileExistsError
  else if p = ["c"] then some PyErr.otherError else none

/-- C5 witness: with a handled error on `b` the two-file run still finishes
with 2 increments; with an unhandled error on `c` the four-file run ends in
`ERROR` after the 2 increments of the files before `c`. -/
theorem c5_per_file_errors_witness :
    ((error_run eps_demo [["a"], ["b"]]).2 = WorkerStatus.FINISHED ∧
     (error_run eps_demo [["a"], ["b"]]).1.count Ev.progress = 2) ∧
    ((error_run eps_demo [["a"], ["b"], ["c"], ["d"]]).2 = WorkerStatus.ERROR ∧
     (error_run eps_demo [["a"], ["b"], ["c"], ["d"]]).1.count Ev.progress = 2) :=
  ⟨(c5_per_file_errors eps_demo [["a"], ["b"]] [] [] []).1 (by decide),
   by
     have h := (c5_per_file_errors eps_demo [["a"], ["b"], ["c"], ["d"]]
       [["a"], ["b"]] [["d"]] ["c"]).2 rfl (by decide) (by decide)
     exact h⟩

theorem statusAt_kill (k i : Nat) :
    statusAt (kill_schedule k) WorkerStatus.KILLED i =
      if i < k then WorkerStatus.RUNNING else WorkerStatus.KILLED := by
  unfold statusAt kill_schedule List.getD
  rw [List.get?_eq_getElem?, List.getElem?_replicate]
  split <;> rfl

theorem skipPaused_eq_self (sigma : List WorkerStatus) (d : WorkerStatus) (i : Nat)
    (h : statusAt sigma d i ≠ WorkerStatus.PAUSED) : skipPaused sigma d i = i := by
  unfold skipPaused
  cases hf : sigma.length - i with
  | zero => rfl
  | succ n => unfold skipPausedAux; simp [h]

theorem skipPaused_kill (k r : Nat) :
    skipPaused (kill_schedule k) WorkerStatus.KILLED r = r := by
  apply skipPaused_eq_self
  rw [statusAt_kill]
  split <;> simp

/-- Characterization of the per-file loop under a kill request landing at
status-read boundary `k` (reads before `k` return `RUNNING`, reads from `k`
on return `KILLED`): provided the request is observable before the last
file's kill check, the loop raises the killed condition, emitting
`min files.length ((k - r + 1) / 3 + 1)` progress increments. -/
theorem job_files_kill (k : Nat) :
    ∀ (files : List Path) (r : Nat), 1 ≤ files.length →
      k ≤ r + 3 * (files.length - 1) + 1 →
      (job_files (kill_schedule k) WorkerStatus.KILLED eps_none files r).2 =
        InnerRes.killedExit ∧
      (job_files (kill_schedule k) WorkerStatus.KILLED eps_none files r).1.count
          Ev.progress =
        min files.length ((k - r + 1) / 3 + 1) ∧
      (job_files (kill_schedule k) WorkerStatus.KILLED eps_none files r).1.count
          Ev.killedRaise = 1 ∧
      (job_files (kill_schedule k) WorkerStatus.KILLED eps_none files r).1.count
          Ev.killedSig = 0 ∧
      (job_files (kill_schedule k) WorkerStatus.KILLED eps_none files r).1.count
          Ev.finishedSig = 0 := by
  intro files
  induction files with
  | nil => intro r h1 _; simp at h1
  | cons f t ih =>
    intro r _ h2
    simp only [List.length_cons, Nat.add_sub_cancel] at h2
    have hmv : move_or_copy_item eps_none f = MoveResult.copied := rfl
    simp only [job_files, hmv, skipPaused_kill]
    by_cases hk : r + 1 < k
    · have htl : 1 ≤ t.length := by omega
      have hc1 : statusAt (kill_schedule k) WorkerStatus.KILLED (r + 1) =
          WorkerStatus.RUNNING := by rw [statusAt_kill]; simp [hk]
      have hc2 : statusAt (kill_schedule k) WorkerStatus.KILLED (r + 2) ≠
          WorkerStatus.FINISHED := by rw [statusAt_kill]; split <;> simp
      obtain ⟨o1, o2, o3, o4, o5⟩ := ih (r + 3) htl (by omega)
      have harith : min t.length ((k - (r + 3) + 1) / 3 + 1) + 1 =
          min (t.length + 1) ((k - r + 1) / 3 + 1) := by omega
      simp [hc1, hc2, List.count_cons, o1, o2, o3, o4, o5, ← harith]
    · have hc1 : statusAt (kill_schedule k) WorkerStatus.KILLED (r + 1) =
          WorkerStatus.KILLED := by rw [statusAt_kill]; simp [hk]
      have hdiv : (k - r + 1) / 3 = 0 := Nat.div_eq_of_lt (by omega)
      have hmin : min (t.length + 1) (0 + 1) = 1 := by
        rw [Nat.min_def]; split <;> omega
      simp [hc1, List.count_cons, hdiv, hmin]

/-- The kill request arrives when exactly `N` units of work have completed:
the first status read returning `KILLED` is the `k`-th, and the request
landed between the copy of file `N` (done just before read `3N - 3`) and
the copy of file `N + 1` (done just before read `3N`); for `N = 0` the
request precedes the first read. -/
def kill_requested_after (N k : Nat) : Prop :=
  (N = 0 ∧ k = 0) ∨ (1 ≤ N ∧ 3 * N - 3 ≤ k ∧ k ≤ 3 * N)

/-- C1, amended: if `kill()` is requested after `N` of `M` units of work
have completed (and early enough to be observable, i.e. before the last
file's kill check), the body raises the distinguishable killed condition
instead of returning success, and observers receive one killed signal, no
finished signal, and either `N` or `N + 1` progress increments — the extra
increment when one more unit of work completes after the request, since the
kill check runs once per file after that file's progress emission. -/
theorem c1_kill_signals (M N k : Nat) (files : List Path)
    (hlen : files.length = M) (hM : 1 ≤ M)
    (hreq : kill_requested_after N k) (hobs : k + 2 ≤ 3 * M) :
    ((kill_run k files).1.count Ev.progress = N ∨
     (kill_run k files).1.count Ev.progress = N + 1) ∧
    (kill_run k files).1.count Ev.killedRaise = 1 ∧
    (kill_run k files).1.count Ev.killedSig = 1 ∧
    (kill_run k files).1.count Ev.finishedSig = 0 ∧
    (kill_run k files).2 = WorkerStatus.KILLED := by
  have hbound : k ≤ 0 + 3 * (files.length - 1) + 1 := by rw [hlen]; omega
  obtain ⟨o1, o2, o3, o4, o5⟩ :=
    job_files_kill k files 0 (by rw [hlen]; omega) hbound
  rcases hjf : job_files (kill_schedule k) WorkerStatus.KILLED eps_none files 0
    with ⟨evs, res⟩
  rw [hjf] at o1 o2 o3 o4 o5
  simp only at o1 o2 o3 o4 o5
  subst o1
  have hrun : kill_run k files =
      ((Ev.metaDirCall "1" :: Ev.sidecarWrite "1" :: evs) ++ [Ev.killedSig],
        WorkerStatus.KILLED) := by
    simp [kill_run, worker_run, job_scans, hjf]
  rw [hrun]
  have hprog : evs.count Ev.progress = min M ((k + 1) / 3 + 1) := by
    rw [o2, hlen, Nat.sub_zero]
  refine ⟨?_, ?_, ?_, ?_, rfl⟩
  · have hred : ((Ev.metaDirCall "1" :: Ev.sidecarWrite "1" :: evs) ++
        [Ev.killedSig]).count Ev.progress = evs.count Ev.progress := by
      simp [List.count_cons, List.count_append]
    rw [hred, hprog]
    rcases hreq with ⟨hN, hk⟩ | ⟨hN, hlo, hhi⟩ <;> omega
  · simp [List.count_cons, List.count_append, o3]
  · simp [List.count_cons, List.count_append, o4]
  · simp [List.count_cons, List.count_append, o5]

/-- C1 witness: two files, kill requested after N = 1 completed unit at
read boundary `k = 3` (between file 1's finished check and file 2's copy):
the run emits N + 1 = 2 increments, one killed signal and no finished
signal. -/
theorem c1_kill_signals_witness :
    ((kill_run 3 [["a"], ["b"]]).1.count Ev.progress = 1 ∨
     (kill_run 3 [["a"], ["b"]]).1.count Ev.progress = 1 + 1) ∧
    (kill_run 3 [["a"], ["b"]]).1.count Ev.killedRaise = 1 ∧
    (kill_run 3 [["a"], ["b"]]).1.count Ev.killedSig = 1 ∧
    (kill_run 3 [["a"], ["b"]]).1.count Ev.finishedSig = 0 ∧
    (kill_run 3 [["a"], ["b"]]).2 = WorkerStatus.KILLED :=
  c1_kill_signals 2 1 3 [["a"], ["b"]] rfl (by omega)
    (Or.inr ⟨by omega, by omega, by omega⟩) (by omega)

/-- The column labels of `get_scan_metadata`, as computed at views.py
lines 64-66. -/
theorem scan_metadata_headers_eq :
    scan_metadata_headers = ["scan_id", "project_id", "instrument_id"] := by decide

/-- C8: for a scan id present in the catalog (with its foreign keys
resolvable), `get_scan_metadata` returns the scan row with `project_id`
rendered as `"{project_id} ({title})"` and `instrument_id` rendered as
`"{instrument_id} ({name})"`, paired with the column labels
`scan_id, project_id, instrument_id`. -/
theorem c8_scan_metadata_resolved (c : Catalog) (sid pid iid : Int)
    (rest : List (Int × Int × Int)) (title : String) (ts : List String)
    (name : String) (ns : List String)
    (hscan : select_scan_rows c sid = (sid, pid, iid) :: rest)
    (hprj : select_project_titles c pid = title :: ts)
    (hinst : select_instrument_names c iid = name :: ns) :
    get_scan_metadata c sid =
      Except.ok ((sid, fmt_id_name pid title, fmt_id_name iid name),
        ["scan_id", "project_id", "instrument_id"]) := by
  unfold get_scan_metadata
  rw [hscan]
  simp only
  rw [hprj, hinst]
  simp only [scan_metadata_headers_eq]

/-- C8 witness: the theorem applied to the demo catalog. -/
theorem c8_scan_metadata_resolved_witness :
    select_scan_rows demo_catalog 1 = [(1, 7, 3)] ∧
    get_scan_metadata demo_catalog 1 =
      Except.ok ((1, fmt_id_name 7 "ProjTitle", fmt_id_name 3 "InstName"),
        ["scan_id", "project_id", "instrument_id"]) :=
  ⟨by decide,
   c8_scan_metadata_resolved demo_catalog 1 7 3 [] "ProjTitle" [] "InstName" []
     (by decide) (by decide) (by decide)⟩

/-- C9: every file enumerated below the source scan directory, whatever its
subdirectory depth, is copied to the single flat destination
`{local_prj_dir}/{scan}/raw/{basename}`, so two source files with the same
basename in different subdirectories target the same destination path. -/
theorem c9_flattened_destination (local_prj_dir : Path) (scan : String)
    (src rel1 rel2 : Path) (nm : String) :
    job_raw_destination local_prj_dir scan (src ++ rel1 ++ [nm]) =
      local_prj_dir ++ [scan, "raw", nm] ∧
    job_raw_destination local_prj_dir scan (src ++ rel1 ++ [nm]) =
      job_raw_destination local_prj_dir scan (src ++ rel2 ++ [nm]) := by
  unfold job_raw_destination copy_destination item_name
  simp [List.getLastD_concat, List.append_assoc]

end TAMS
